import Mathlib

/-!
Verification development for the yabridge plugin bridge (native-proxy side).

The definitions below are shallow embeddings of:
  * the bitsery-based serialization codec used by the message structs
    (the bitsery library itself is not part of this repository's sources,
    so the framing primitives are modelled from the spec, section 4.2);
  * the message structs `YaPhysicalUIMapList` / `PhysicalUIMap`
    (src/common/serialization/vst3/physical-ui-map-list.h),
    `clap::plugin::Descriptor` (src/common/serialization/clap/plugin.h) and
    `clap::ext::audio_ports::AudioPortInfo`
    (src/common/serialization/clap/ext/audio-ports.h);
  * `clap::host::Host` (src/common/serialization/clap/host.cpp);
  * the VST2 `PluginBridge` paths (src/plugin/plugin-bridge.cpp):
    socket accepts, liveness poll, dispatch, audio processing, the
    host-callback MIDI queue, and the parameter path;
  * the VST2 entry point (src/plugin/vst2-plugin.cpp).

Machine integers are modelled as `Nat` with explicit bounds where they
matter; byte streams are `List Nat` with each byte below 256 when produced
by the writers.
-/

/-- Error taxonomy of the codec, from the spec, section 4.2 / 7:
`CodecTruncated` (short read), `CodecOverflow` (length exceeds max),
`CodecBadTag` (unknown variant). -/
inductive CodecError where
  | codecTruncated
  | codecOverflow
  | codecBadTag
deriving DecidableEq

/-- Modelled from the spec: bitsery `value4b` write. Integers are
fixed-width little-endian; a `uint32_t` becomes four bytes. -/
def writeU32LE (n : Nat) : List Nat :=
  [n % 256, n / 256 % 256, n / 65536 % 256, n / 16777216 % 256]

/-- Modelled from the spec: bitsery `value4b` read (little-endian u32). -/
def readU32LE : List Nat → Except CodecError (Nat × List Nat)
  | b0 :: b1 :: b2 :: b3 :: rest =>
      Except.ok (b0 + 256 * b1 + 65536 * b2 + 16777216 * b3, rest)
  | _ => Except.error CodecError.codecTruncated

/-- Read `n` raw bytes from the stream, failing on a short read. -/
def readBytes (n : Nat) (st : List Nat) :
    Except CodecError (List Nat × List Nat) :=
  if n ≤ st.length then Except.ok (st.take n, st.drop n)
  else Except.error CodecError.codecTruncated

/-- Modelled from the spec: bitsery `text1b(str, maxSize)` write. Strings
are a u32 length followed by the bytes. -/
def writeText1b (s : List Nat) : List Nat :=
  writeU32LE s.length ++ s

/-- Modelled from the spec: bitsery `text1b(str, maxSize)` read. The
declared length is checked against the maximum before any payload is
read; an oversized length fails with `CodecOverflow`. -/
def readText1bMax (maxSize : Nat) (st : List Nat) :
    Except CodecError (List Nat × List Nat) :=
  match readU32LE st with
  | Except.error e => Except.error e
  | Except.ok (len, rest) =>
      if maxSize < len then Except.error CodecError.codecOverflow
      else readBytes len rest

/-- Modelled from the spec: a bitsery `text1b(str)` call with **no**
maximum-size argument, as in `AudioPortInfo::serialize`
(src/common/serialization/clap/ext/audio-ports.h line 66). No bound is
enforced on the declared length. -/
def readText1bNoMax (st : List Nat) :
    Except CodecError (List Nat × List Nat) :=
  match readU32LE st with
  | Except.error e => Except.error e
  | Except.ok (len, rest) => readBytes len rest

/-- Modelled from the spec: in-place optionals are a one-byte present
flag followed by the payload when present. Write side. -/
def writeOpt (w : α → List Nat) : Option α → List Nat
  | Option.none => [0]
  | Option.some v => 1 :: w v

/-- Modelled from the spec: in-place optional read; flag bytes other than
0 and 1 are an unknown variant tag. -/
def readOpt (r : List Nat → Except CodecError (α × List Nat)) :
    List Nat → Except CodecError (Option α × List Nat)
  | [] => Except.error CodecError.codecTruncated
  | b :: rest =>
      if b = 0 then Except.ok (Option.none, rest)
      else if b = 1 then
        match r rest with
        | Except.error e => Except.error e
        | Except.ok (v, rest2) => Except.ok (Option.some v, rest2)
      else Except.error CodecError.codecBadTag

/-- Concatenated encodings of the elements of a container. -/
def writeListElems (w : α → List Nat) : List α → List Nat
  | [] => []
  | x :: xs => w x ++ writeListElems w xs

/-- Modelled from the spec: containers are a u32 count followed by the
elements. Write side. -/
def writeContainer (w : α → List Nat) (xs : List α) : List Nat :=
  writeU32LE xs.length ++ writeListElems w xs

/-- Read `count` consecutive elements. -/
def readListElems (r : List Nat → Except CodecError (α × List Nat)) :
    Nat → List Nat → Except CodecError (List α × List Nat)
  | 0, st => Except.ok ([], st)
  | Nat.succ k, st =>
      match r st with
      | Except.error e => Except.error e
      | Except.ok (v, rest) =>
          match readListElems r k rest with
          | Except.error e => Except.error e
          | Except.ok (vs, rest2) => Except.ok (v :: vs, rest2)

/-- Modelled from the spec: container read; the declared count is checked
against the container's maximum size. -/
def readContainer (maxSize : Nat)
    (r : List Nat → Except CodecError (α × List Nat)) (st : List Nat) :
    Except CodecError (List α × List Nat) :=
  match readU32LE st with
  | Except.error e => Except.error e
  | Except.ok (count, rest) =>
      if maxSize < count then Except.error CodecError.codecOverflow
      else readListElems r count rest

theorem take_append_len (s rest : List Nat) : (s ++ rest).take s.length = s := by
  induction s with
  | nil => rfl
  | cons a t ih => simp [ih]

theorem drop_append_len (s rest : List Nat) : (s ++ rest).drop s.length = rest := by
  induction s with
  | nil => rfl
  | cons a t ih => simp [ih]

theorem readU32LE_writeU32LE (n : Nat) (rest : List Nat) (h : n < 4294967296) :
    readU32LE (writeU32LE n ++ rest) = Except.ok (n, rest) := by
  simp only [writeU32LE, List.cons_append, List.nil_append, readU32LE,
    Except.ok.injEq, Prod.mk.injEq, and_true]
  omega

theorem readBytes_append (s rest : List Nat) :
    readBytes s.length (s ++ rest) = Except.ok (s, rest) := by
  simp [readBytes, take_append_len, drop_append_len]

theorem readText1bMax_writeText1b (m : Nat) (s rest : List Nat)
    (hlen : s.length ≤ m) (hm : m < 4294967296) :
    readText1bMax m (writeText1b s ++ rest) = Except.ok (s, rest) := by
  unfold readText1bMax writeText1b
  rw [List.append_assoc, readU32LE_writeU32LE s.length (s ++ rest) (by omega)]
  simp [Nat.not_lt.mpr hlen, readBytes_append]

theorem readText1bNoMax_writeText1b (s rest : List Nat)
    (h : s.length < 4294967296) :
    readText1bNoMax (writeText1b s ++ rest) = Except.ok (s, rest) := by
  unfold readText1bNoMax writeText1b
  rw [List.append_assoc, readU32LE_writeU32LE s.length (s ++ rest) h]
  simp [readBytes_append]

theorem readOpt_writeOpt (r : List Nat → Except CodecError (α × List Nat))
    (w : α → List Nat) (o : Option α) (rest : List Nat)
    (h : ∀ v, o = Option.some v → ∀ rest2, r (w v ++ rest2) = Except.ok (v, rest2)) :
    readOpt r (writeOpt w o ++ rest) = Except.ok (o, rest) := by
  cases o with
  | none => simp [writeOpt, readOpt]
  | some v => simp [writeOpt, readOpt, h v rfl rest]

theorem readListElems_writeListElems
    (r : List Nat → Except CodecError (α × List Nat)) (w : α → List Nat)
    (xs : List α) (rest : List Nat)
    (h : ∀ v, v ∈ xs → ∀ rest2, r (w v ++ rest2) = Except.ok (v, rest2)) :
    readListElems r xs.length (writeListElems w xs ++ rest) =
      Except.ok (xs, rest) := by
  induction xs generalizing rest with
  | nil => simp [writeListElems, readListElems]
  | cons x t ih =>
      have hx := h x (List.mem_cons_self x t) (writeListElems w t ++ rest)
      simp only [writeListElems, List.length_cons, List.append_assoc, readListElems, hx]
      rw [ih rest (fun v hv rest2 => h v (List.mem_cons_of_mem x hv) rest2)]

theorem readContainer_writeContainer (m : Nat)
    (r : List Nat → Except CodecError (α × List Nat)) (w : α → List Nat)
    (xs : List α) (rest : List Nat)
    (hlen : xs.length ≤ m) (hm : m < 4294967296)
    (h : ∀ v, v ∈ xs → ∀ rest2, r (w v ++ rest2) = Except.ok (v, rest2)) :
    readContainer m r (writeContainer w xs ++ rest) = Except.ok (xs, rest) := by
  unfold readContainer writeContainer
  rw [List.append_assoc,
    readU32LE_writeU32LE xs.length (writeListElems w xs ++ rest) (by omega)]
  simp [Nat.not_lt.mpr hlen, readListElems_writeListElems r w xs rest h]

/-! ## Message structs (serialization layer) -/

/-- Sequencing of codec reads: run `e`, feed the value and the remaining
stream to `f`, propagating errors. (The shape bitsery's deserializer gives
to consecutive reads in a `serialize` body.) -/
def andThen (e : Except CodecError (α × List Nat))
    (f : α → List Nat → Except CodecError β) : Except CodecError β :=
  match e with
  | Except.error err => Except.error err
  | Except.ok (v, rest) => f v rest

theorem andThen_ok (v : α) (rest : List Nat)
    (f : α → List Nat → Except CodecError β) :
    andThen (Except.ok (v, rest)) f = f v rest := rfl

/-- `Steinberg::Vst::PhysicalUIMap`: two `uint32` fields
(src/common/serialization/vst3/physical-ui-map-list.h lines 64-68). -/
structure PhysicalUIMap where
  physicalUITypeID : Nat
  noteExpressionTypeID : Nat
deriving DecidableEq

/-- Serialization (write direction) of a `PhysicalUIMap` through the free
function `serialize(S& s, PhysicalUIMap map)`: `value4b` of both fields. -/
def writePhysicalUIMap (m : PhysicalUIMap) : List Nat :=
  writeU32LE m.physicalUITypeID ++ writeU32LE m.noteExpressionTypeID

/-- Deserialization of a container element through
`serialize(S& s, PhysicalUIMap map)`: the parameter is taken **by value**,
so the two `value4b` reads consume eight bytes into a local copy that is
then discarded; the vector element keeps its value-initialized contents
(a zeroed POD), which is what this function returns. -/
def readPhysicalUIMapByValue (st : List Nat) :
    Except CodecError (PhysicalUIMap × List Nat) :=
  match readU32LE st with
  | Except.error e => Except.error e
  | Except.ok (_, rest) =>
      match readU32LE rest with
      | Except.error e => Except.error e
      | Except.ok (_, rest2) => Except.ok (PhysicalUIMap.mk 0 0, rest2)

/-- `YaPhysicalUIMapList` owns a vector of `PhysicalUIMap`
(field `maps_`). -/
structure YaPhysicalUIMapList where
  maps_ : List PhysicalUIMap
deriving DecidableEq

/-- `YaPhysicalUIMapList::serialize`: `s.container(maps_, 1 << 31)`,
write direction. -/
def YaPhysicalUIMapList.encode (l : YaPhysicalUIMapList) : List Nat :=
  writeContainer writePhysicalUIMap l.maps_

/-- `YaPhysicalUIMapList::serialize`, read direction: container with
maximum size `1 << 31`, elements read through the by-value free function. -/
def YaPhysicalUIMapList.decode (st : List Nat) :
    Except CodecError (YaPhysicalUIMapList × List Nat) :=
  match readContainer 2147483648 readPhysicalUIMapByValue st with
  | Except.error e => Except.error e
  | Except.ok (ms, rest) => Except.ok (YaPhysicalUIMapList.mk ms, rest)

/-- `clap_version_t`: three `uint32_t` fields, serialized by the free
function at the bottom of src/common/serialization/clap/plugin.h. -/
structure ClapVersion where
  major : Nat
  minor : Nat
  revision : Nat
deriving DecidableEq

def writeClapVersion (v : ClapVersion) : List Nat :=
  writeU32LE v.major ++ writeU32LE v.minor ++ writeU32LE v.revision

def readClapVersion (st : List Nat) :
    Except CodecError (ClapVersion × List Nat) :=
  andThen (readU32LE st) fun ma st1 =>
  andThen (readU32LE st1) fun mi st2 =>
  andThen (readU32LE st2) fun re st3 =>
  Except.ok (ClapVersion.mk ma mi re, st3)

/-- `clap::plugin::Descriptor` (src/common/serialization/clap/plugin.h):
owned mirror of `clap_plugin_descriptor`. Strings are byte lists. -/
structure Descriptor where
  clap_version : ClapVersion
  id : List Nat
  name : List Nat
  vendor : Option (List Nat)
  url : Option (List Nat)
  manual_url : Option (List Nat)
  support_url : Option (List Nat)
  version : Option (List Nat)
  description : Option (List Nat)
  features : List (List Nat)
deriving DecidableEq

/-- `Descriptor::serialize`, write direction: the exact field order of the
source, every string and the features container bounded by 4096. -/
def Descriptor.encode (d : Descriptor) : List Nat :=
  writeClapVersion d.clap_version ++
  writeText1b d.id ++
  writeText1b d.name ++
  writeOpt writeText1b d.vendor ++
  writeOpt writeText1b d.url ++
  writeOpt writeText1b d.manual_url ++
  writeOpt writeText1b d.support_url ++
  writeOpt writeText1b d.version ++
  writeOpt writeText1b d.description ++
  writeContainer writeText1b d.features

/-- `Descriptor::serialize`, read direction. -/
def Descriptor.decode (st : List Nat) :
    Except CodecError (Descriptor × List Nat) :=
  andThen (readClapVersion st) fun cv st1 =>
  andThen (readText1bMax 4096 st1) fun i st2 =>
  andThen (readText1bMax 4096 st2) fun nm st3 =>
  andThen (readOpt (readText1bMax 4096) st3) fun vd st4 =>
  andThen (readOpt (readText1bMax 4096) st4) fun u st5 =>
  andThen (readOpt (readText1bMax 4096) st5) fun mu st6 =>
  andThen (readOpt (readText1bMax 4096) st6) fun su st7 =>
  andThen (readOpt (readText1bMax 4096) st7) fun ver st8 =>
  andThen (readOpt (readText1bMax 4096) st8) fun de st9 =>
  andThen (readContainer 4096 (readText1bMax 4096) st9) fun fs st10 =>
  Except.ok (Descriptor.mk cv i nm vd u mu su ver de fs, st10)

/-- `clap::ext::audio_ports::AudioPortInfo`
(src/common/serialization/clap/ext/audio-ports.h): owned mirror of
`clap_audio_port_info`. -/
structure AudioPortInfo where
  id : Nat
  name : List Nat
  flags : Nat
  channel_count : Nat
  port_type : List Nat
  in_place_pair : Nat
deriving DecidableEq

/-- `AudioPortInfo::serialize`, write direction, in source field order:
`value4b(id)`, `text1b(name, 4096)`, `value4b(flags)`,
`value4b(channel_count)`, `text1b(port_type)` — note: **no** maximum —
and `value4b(in_place_pair)`. -/
def AudioPortInfo.encode (p : AudioPortInfo) : List Nat :=
  writeU32LE p.id ++
  writeText1b p.name ++
  writeU32LE p.flags ++
  writeU32LE p.channel_count ++
  writeText1b p.port_type ++
  writeU32LE p.in_place_pair

/-- `AudioPortInfo::serialize`, read direction. `name` is bounded by
4096; `port_type` is read through the unbounded `text1b(port_type)`. -/
def AudioPortInfo.decode (st : List Nat) :
    Except CodecError (AudioPortInfo × List Nat) :=
  andThen (readU32LE st) fun i st1 =>
  andThen (readText1bMax 4096 st1) fun nm st2 =>
  andThen (readU32LE st2) fun fl st3 =>
  andThen (readU32LE st3) fun cc st4 =>
  andThen (readText1bNoMax st4) fun pt st5 =>
  andThen (readU32LE st5) fun ip st6 =>
  Except.ok (AudioPortInfo.mk i nm fl cc pt ip, st6)

/-- An `AudioPortInfo` whose `port_type` is longer than the 4096-byte
default string maximum. -/
def oversizedAudioPortInfo : AudioPortInfo :=
  AudioPortInfo.mk 7 [65] 3 2 (List.replicate 4097 66) 7

theorem readClapVersion_writeClapVersion (v : ClapVersion) (rest : List Nat)
    (hma : v.major < 4294967296) (hmi : v.minor < 4294967296)
    (hre : v.revision < 4294967296) :
    readClapVersion (writeClapVersion v ++ rest) = Except.ok (v, rest) := by
  obtain ⟨ma, mi, re⟩ := v
  unfold readClapVersion writeClapVersion
  simp only [List.append_assoc]
  rw [readU32LE_writeU32LE ma _ hma]
  simp only [andThen_ok]
  rw [readU32LE_writeU32LE mi _ hmi]
  simp only [andThen_ok]
  rw [readU32LE_writeU32LE re _ hre]
  simp only [andThen_ok]

/-- Round-trip of `clap::plugin::Descriptor` under the field bounds the
codec enforces (all strings and the features container at most 4096, the
`clap_version` fields genuine `uint32_t` values). -/
theorem descriptor_decode_encode (d : Descriptor) (rest : List Nat)
    (hma : d.clap_version.major < 4294967296)
    (hmi : d.clap_version.minor < 4294967296)
    (hre : d.clap_version.revision < 4294967296)
    (hid : d.id.length ≤ 4096) (hnm : d.name.length ≤ 4096)
    (hvd : ∀ s ∈ d.vendor, List.length s ≤ 4096)
    (hu : ∀ s ∈ d.url, List.length s ≤ 4096)
    (hmu : ∀ s ∈ d.manual_url, List.length s ≤ 4096)
    (hsu : ∀ s ∈ d.support_url, List.length s ≤ 4096)
    (hver : ∀ s ∈ d.version, List.length s ≤ 4096)
    (hde : ∀ s ∈ d.description, List.length s ≤ 4096)
    (hfs : d.features.length ≤ 4096)
    (hfe : ∀ s ∈ d.features, List.length s ≤ 4096) :
    Descriptor.decode (Descriptor.encode d ++ rest) = Except.ok (d, rest) := by
  unfold Descriptor.decode Descriptor.encode
  simp only [List.append_assoc]
  rw [readClapVersion_writeClapVersion d.clap_version _ hma hmi hre]
  simp only [andThen_ok]
  rw [readText1bMax_writeText1b 4096 d.id _ hid (by omega)]
  simp only [andThen_ok]
  rw [readText1bMax_writeText1b 4096 d.name _ hnm (by omega)]
  simp only [andThen_ok]
  rw [readOpt_writeOpt _ _ d.vendor _ (fun v hv rest2 =>
    readText1bMax_writeText1b 4096 v rest2 (hvd v (by simp [hv])) (by omega))]
  simp only [andThen_ok]
  rw [readOpt_writeOpt _ _ d.url _ (fun v hv rest2 =>
    readText1bMax_writeText1b 4096 v rest2 (hu v (by simp [hv])) (by omega))]
  simp only [andThen_ok]
  rw [readOpt_writeOpt _ _ d.manual_url _ (fun v hv rest2 =>
    readText1bMax_writeText1b 4096 v rest2 (hmu v (by simp [hv])) (by omega))]
  simp only [andThen_ok]
  rw [readOpt_writeOpt _ _ d.support_url _ (fun v hv rest2 =>
    readText1bMax_writeText1b 4096 v rest2 (hsu v (by simp [hv])) (by omega))]
  simp only [andThen_ok]
  rw [readOpt_writeOpt _ _ d.version _ (fun v hv rest2 =>
    readText1bMax_writeText1b 4096 v rest2 (hver v (by simp [hv])) (by omega))]
  simp only [andThen_ok]
  rw [readOpt_writeOpt _ _ d.description _ (fun v hv rest2 =>
    readText1bMax_writeText1b 4096 v rest2 (hde v (by simp [hv])) (by omega))]
  simp only [andThen_ok]
  rw [readContainer_writeContainer 4096 _ _ d.features _ hfs (by omega)
    (fun v hv rest2 => readText1bMax_writeText1b 4096 v rest2 (hfe v hv) (by omega))]
  simp only [andThen_ok]

/-- Round-trip of `clap::ext::audio_ports::AudioPortInfo`. Note that
`port_type` only needs to fit the u32 length prefix, not the 4096-byte
maximum: the source serializes it without a bound. -/
theorem audio_port_info_decode_encode (p : AudioPortInfo) (rest : List Nat)
    (hi : p.id < 4294967296) (hnm : p.name.length ≤ 4096)
    (hfl : p.flags < 4294967296) (hcc : p.channel_count < 4294967296)
    (hpt : p.port_type.length < 4294967296) (hip : p.in_place_pair < 4294967296) :
    AudioPortInfo.decode (AudioPortInfo.encode p ++ rest) = Except.ok (p, rest) := by
  unfold AudioPortInfo.decode AudioPortInfo.encode
  simp only [List.append_assoc]
  rw [readU32LE_writeU32LE p.id _ hi]
  simp only [andThen_ok]
  rw [readText1bMax_writeText1b 4096 p.name _ hnm (by omega)]
  simp only [andThen_ok]
  rw [readU32LE_writeU32LE p.flags _ hfl]
  simp only [andThen_ok]
  rw [readU32LE_writeU32LE p.channel_count _ hcc]
  simp only [andThen_ok]
  rw [readText1bNoMax_writeText1b p.port_type _ hpt]
  simp only [andThen_ok]
  rw [readU32LE_writeU32LE p.in_place_pair _ hip]
  simp only [andThen_ok]

/-! ## PluginBridge (src/plugin/plugin-bridge.cpp) -/

/-- The five channels, in the order the members are declared and the
sockets accepted. -/
inductive SocketId where
  | dispatch
  | dispatchMidiEvents
  | hostCallback
  | parameters
  | processReplacing
deriving DecidableEq

/-- An observable step of the socket-setup section of the
`PluginBridge` constructor. -/
inductive CtorStep where
  | accept (s : SocketId)
  | setFinishedAcceptingSockets
  | closeAcceptor
  | removeEndpointFile
deriving DecidableEq

/-- The socket-setup section of `PluginBridge::PluginBridge`
(plugin-bridge.cpp lines 131-143), in program order: five
`socket_acceptor.accept(...)` calls, then
`finished_accepting_sockets = true`, then `socket_acceptor.close()`,
then `fs::remove(socket_endpoint.path())`. -/
def constructor_socket_steps : List CtorStep :=
  [CtorStep.accept SocketId.dispatch,
   CtorStep.accept SocketId.dispatchMidiEvents,
   CtorStep.accept SocketId.hostCallback,
   CtorStep.accept SocketId.parameters,
   CtorStep.accept SocketId.processReplacing,
   CtorStep.setFinishedAcceptingSockets,
   CtorStep.closeAcceptor,
   CtorStep.removeEndpointFile]

def acceptedSocket : CtorStep → Option SocketId
  | CtorStep.accept s => Option.some s
  | _ => Option.none

/-- Individually hosted plugin versus plugin group
(`config.group.has_value()`). -/
inductive HostingMode where
  | individual
  | group
deriving DecidableEq

/-- What one iteration of the startup liveness poll thread can observe
(plugin-bridge.cpp lines 96-128). -/
structure LivenessObservation where
  finished_accepting_sockets : Bool
  mode : HostingMode
  /-- `vst_host.running()`, consulted in individual mode. -/
  child_running : Bool
  /-- whether `kill(vst_host_pid, 0)` returns 0, consulted in group mode. -/
  kill_zero_ok : Bool
deriving DecidableEq

/-- What one poll iteration does. -/
inductive PollStep where
  | exitPoll
  | logAndTerminate
  | sleepAndRepeat
deriving DecidableEq

/-- One iteration of the liveness poll loop, translated from
plugin-bridge.cpp lines 99-126: return if the sockets are all accepted;
otherwise, in group mode terminate when `kill(pid, 0) != 0`, in
individual mode terminate when the child is no longer running; else
sleep one second and repeat. `std::terminate()` is preceded by a log
line. -/
def liveness_poll_iteration (o : LivenessObservation) : PollStep :=
  if o.finished_accepting_sockets then PollStep.exitPoll
  else
    match o.mode with
    | HostingMode.group =>
        if o.kill_zero_ok then PollStep.sleepAndRepeat
        else PollStep.logAndTerminate
    | HostingMode.individual =>
        if o.child_running then PollStep.sleepAndRepeat
        else PollStep.logAndTerminate

/-- How bridge startup ends, as seen by the host that called the plugin
entry point. -/
inductive EntryOutcome where
  | returnedPlugin
  | returnedNullWithNotification
  | processAborted
deriving DecidableEq

/-- `VSTPluginMain` (vst2-plugin.cpp lines 43-75): construct the bridge;
on success return the plugin struct, on a caught `std::exception` log,
send a desktop notification and return null. -/
def vst_plugin_main (construction : Except String Unit) : EntryOutcome :=
  match construction with
  | Except.ok _ => EntryOutcome.returnedPlugin
  | Except.error _ => EntryOutcome.returnedNullWithNotification

/-- The outcome surfaced to the host when the liveness poll thread and
the entry point run together: `std::terminate()` in the detached poll
thread aborts the whole process, so the entry point never returns; in
every other case the outcome is whatever `VSTPluginMain` produces for
the construction result. -/
def surfaced_startup_outcome (poll : PollStep)
    (construction : Except String Unit) : EntryOutcome :=
  match poll with
  | PollStep.logAndTerminate => EntryOutcome.processAborted
  | _ => vst_plugin_main construction

/-! ## Dispatch routing -/

/-- VST2 opcode `effClose`. -/
def effClose : Int := 1
/-- VST2 opcode `effProcessEvents`. -/
def effProcessEvents : Int := 25
/-- VST2 opcode `effCanDo`. -/
def effCanDo : Int := 51

/-- The can-do query that is intercepted locally. -/
def cockos_query : String := "hasCockosViewAsConfig"

/-- What a single `PluginBridge::dispatch` call did: the channel a
request went out on (`none` when the Wine host was not contacted) and
the value returned to the host. -/
structure DispatchResult where
  sent_on : Option SocketId
  return_value : Int
deriving DecidableEq

/-- The routing layer of `PluginBridge::dispatch` (plugin-bridge.cpp
lines 426-536). `magic` is `plugin.magic`; `send c` is the return value
produced by `send_event` on channel `c`; `data` is the C-string under
the data pointer when there is one. In order: the Ardour guard returns 0
when `plugin.magic == 0` without any traffic; `effClose` and the default
case send on the `dispatch` channel (the close branch's shutdown
sequence is modelled separately by `dispatch_close`); `effProcessEvents`
sends on the dedicated `dispatch_midi_events` channel; an `effCanDo`
with the libSwell query returns -1 with no traffic, any other can-do
falls through to the default send. -/
def dispatch_route (magic : Int) (send : SocketId → Int) (opcode : Int)
    (data : Option String) : DispatchResult :=
  if magic = 0 then
    DispatchResult.mk Option.none 0
  else if opcode = effClose then
    DispatchResult.mk (Option.some SocketId.dispatch) (send SocketId.dispatch)
  else if opcode = effProcessEvents then
    DispatchResult.mk (Option.some SocketId.dispatchMidiEvents)
      (send SocketId.dispatchMidiEvents)
  else if opcode = effCanDo ∧ data = Option.some cockos_query then
    DispatchResult.mk Option.none (-1)
  else
    DispatchResult.mk (Option.some SocketId.dispatch) (send SocketId.dispatch)

/-! ## The effClose shutdown sequence -/

/-- Helper threads joined during shutdown. -/
inductive CloseThread where
  | groupHostConnectHandler
  | hostCallbackHandler
  | wineIOHandler
deriving DecidableEq

/-- An observable action of the `effClose` branch. -/
inductive CloseAction where
  | sendCloseEvent
  | terminateWineProcess
  | closeDispatchChannel
  | stopIOContext
  | joinThread (t : CloseThread)
  | freeBridge
deriving DecidableEq

structure CloseOutcome where
  trace : List CloseAction
  return_value : Int
deriving DecidableEq

/-- The `effClose` branch of `PluginBridge::dispatch` (plugin-bridge.cpp
lines 452-497). `send_result` is the outcome of the best-effort
`send_event` (`Except.error` models the caught
`boost::system::system_error`, after which `return_value` keeps its
initial 0). Then: individual mode terminates the Wine process, group
mode closes the dispatch channel instead; the IO context is stopped; the
group-connect handler is joined only when joinable; the host-callback
and Wine-IO handlers are joined; the bridge is deleted; the plugin's
return value is returned. -/
def dispatch_close (group_mode : Bool) (group_connect_joinable : Bool)
    (send_result : Except Unit Int) : CloseOutcome :=
  { trace :=
      [CloseAction.sendCloseEvent] ++
      (if group_mode then [CloseAction.closeDispatchChannel]
       else [CloseAction.terminateWineProcess]) ++
      [CloseAction.stopIOContext] ++
      (if group_connect_joinable then
        [CloseAction.joinThread CloseThread.groupHostConnectHandler]
       else []) ++
      [CloseAction.joinThread CloseThread.hostCallbackHandler,
       CloseAction.joinThread CloseThread.wineIOHandler,
       CloseAction.freeBridge],
    return_value :=
      match send_result with
      | Except.ok v => v
      | Except.error _ => 0 }

/-! ## Parameter path -/

/-- The request sent on the parameters channel:
`{index, value}` with an optional value. -/
structure Parameter (V : Type) where
  index : Int
  value : Option V
deriving DecidableEq

/-- The response read back from the parameters channel. -/
structure ParameterResult (V : Type) where
  value : Option V
deriving DecidableEq

/-- Fatal protocol violations. -/
inductive BridgeFatal where
  | protocolMismatch
deriving DecidableEq

/-- `PluginBridge::get_parameter` (plugin-bridge.cpp lines 579-596):
send `{index, std::nullopt}`, read the response, return
`response.value.value()`. A response without a value makes `value()`
throw (fatal), modelled as `protocolMismatch`. `respond` is the
channel: the response the Wine host produces for a request. -/
def get_parameter (respond : Parameter V → ParameterResult V)
    (index : Int) : Parameter V × Except BridgeFatal V :=
  let request : Parameter V := Parameter.mk index Option.none
  let response := respond request
  (request,
    match response.value with
    | Option.some v => Except.ok v
    | Option.none => Except.error BridgeFatal.protocolMismatch)

/-- `PluginBridge::set_parameter` (plugin-bridge.cpp lines 598-615):
send `{index, value}`, read the response, `assert` that it carries no
value (acknowledgement); a value-carrying response fails the assertion,
modelled as `protocolMismatch`. -/
def set_parameter (respond : Parameter V → ParameterResult V)
    (index : Int) (value : V) : Parameter V × Except BridgeFatal Unit :=
  let request : Parameter V := Parameter.mk index (Option.some value)
  let response := respond request
  (request,
    match response.value with
    | Option.none => Except.ok Unit.unit
    | Option.some _ => Except.error BridgeFatal.protocolMismatch)

/-! ## Host-callback handler and the audio path -/

/-- VST2 host opcode `audioMasterProcessEvents`. -/
def audioMasterProcessEvents : Int := 8

/-- The slice of `EventPayload` the host-callback handler distinguishes:
a MIDI batch (`DynamicVstEvents`, abstracted to `β`) or anything else. -/
inductive EventPayload (β : Type) where
  | nil
  | midiEvents (batch : β)
  | otherPayload
deriving DecidableEq

/-- An event read from the host-callback channel. -/
structure Event (β : Type) where
  opcode : Int
  payload : EventPayload β
deriving DecidableEq

/-- `EventResult{return_value, payload, value_payload}`. -/
structure EventResult (β : Type) where
  return_value : Int
  payload : EventPayload β
  value_payload : Option (EventPayload β)
deriving DecidableEq

/-- The response `{1, nullptr, std::nullopt}` sent for an enqueued MIDI
batch (plugin-bridge.cpp line 177). -/
def midiEnqueuedResult (β : Type) : EventResult β :=
  EventResult.mk 1 EventPayload.nil Option.none

/-- The body of the `host_callback_handler` thread for one received
event (plugin-bridge.cpp lines 157-190): an `audioMasterProcessEvents`
event has its `DynamicVstEvents` payload appended to
`incoming_midi_events` under the queue mutex and is answered with
return value 1 — the host callback is *not* invoked; every other event
goes through `passthrough_event` synchronously. `none` models the
`std::get` failure on a MIDI event without a MIDI payload. -/
def handle_host_callback_event (passthrough : Event β → EventResult β)
    (queue : List β) (e : Event β) : Option (List β × EventResult β) :=
  if e.opcode = audioMasterProcessEvents then
    match e.payload with
    | EventPayload.midiEvents b =>
        Option.some (queue ++ [b], midiEnqueuedResult β)
    | _ => Option.none
  else
    Option.some (queue, passthrough e)

/-- The `AudioBuffers` message exchanged on the audio channel:
owned planes plus the frame count. -/
structure AudioBuffers (α : Type) where
  buffers : List (List α)
  sample_frames : Nat
deriving DecidableEq

/-- Size of each owned input buffer:
`std::vector<float>(sample_frames)` (plugin-bridge.cpp line 545). -/
def input_buffer_size (sample_frames : Nat) : Nat := sample_frames

/-- Number of samples the copy reads and writes:
`std::copy(inputs[channel], inputs[channel] + sample_frames + 1, ...)`
(plugin-bridge.cpp line 547). -/
def vst_copy_count (sample_frames : Nat) : Nat := sample_frames + 1

/-- The observable (in-bounds) contents of an owned input buffer after
the copy: the first `vst_copy_count` samples of the host plane,
truncated to the buffer size. The final write of the copy lands past
the end of the buffer whenever `vst_copy_count` exceeds
`input_buffer_size`; that overflow is recorded separately by
`copy_overruns` below. -/
def copied_input_buffer (plane : List α) (sample_frames : Nat) : List α :=
  List.take (input_buffer_size sample_frames)
    (List.take (vst_copy_count sample_frames) plane)

/-- An observable action of `PluginBridge::process_replacing`. -/
inductive PRAction (α β : Type) where
  | writeAudioRequest (request : AudioBuffers α)
  | readAudioResponse
  | writeOutputPlane (channel : Nat) (samples : List α)
  | hostCallbackProcessEvents (batch : β)
deriving DecidableEq

/-- The result of one `process_replacing` call: its action trace, the
MIDI queue it leaves behind, and whether any input-buffer copy wrote
past the end of its owned buffer. -/
structure PRResult (α β : Type) where
  trace : List (PRAction α β)
  final_midi_queue : List β
  copy_overruns : Bool
deriving DecidableEq

/-- `PluginBridge::process_replacing` (plugin-bridge.cpp lines 538-577),
with the Wine side abstracted as the function `wine_response` from the
request to the `AudioBuffers` read back. In order: copy each of the
`numInputs` host planes into an owned buffer (the copy takes
`vst_copy_count sample_frames` samples; `copy_overruns` records whether
that exceeded the buffer); write the request; read the response;
`assert(response.buffers.size() == numOutputs)` (the error case);
copy every response buffer to the host's output plane; then, under the
queue mutex, deliver every queued MIDI batch to the host callback in
order and clear the queue. -/
def process_replacing (numInputs numOutputs : Nat)
    (inputs : List (List α)) (sample_frames : Nat)
    (wine_response : AudioBuffers α → AudioBuffers α)
    (midi_queue : List β) : Except String (PRResult α β) :=
  let input_buffers :=
    (List.range numInputs).map fun ch =>
      copied_input_buffer (inputs.getD ch []) sample_frames
  let request : AudioBuffers α := AudioBuffers.mk input_buffers sample_frames
  let response := wine_response request
  if response.buffers.length = numOutputs then
    Except.ok
      { trace :=
          [PRAction.writeAudioRequest request, PRAction.readAudioResponse] ++
          ((List.range numOutputs).map fun ch =>
            PRAction.writeOutputPlane ch (response.buffers.getD ch [])) ++
          midi_queue.map PRAction.hostCallbackProcessEvents,
        final_midi_queue := [],
        copy_overruns :=
          decide (0 < numInputs ∧
            input_buffer_size sample_frames < vst_copy_count sample_frames) }
  else Except.error ("assertion failed: response buffer count mismatch")

/-- The host-callback event carrying a MIDI batch. -/
def mk_process_events_event (b : β) : Event β :=
  Event.mk audioMasterProcessEvents (EventPayload.midiEvents b)

/-- The queue contents after the handler thread has received a sequence
of MIDI batches during a block. -/
def enqueue_incoming (passthrough : Event β → EventResult β)
    (queue : List β) (batches : List β) : List β :=
  batches.foldl
    (fun q b =>
      match handle_host_callback_event passthrough q (mk_process_events_event b) with
      | Option.some (q2, _) => q2
      | Option.none => q)
    queue

/-- Is a trace action a MIDI delivery to the host callback? -/
def isMidiDelivery : PRAction α β → Bool
  | PRAction.hostCallbackProcessEvents _ => true
  | _ => false

/-! ## clap::host::Host -/

/-- The fields of `clap_host_t` the constructor reads; the four string
pointers are nullable. -/
structure ClapHostT where
  clap_version : ClapVersion
  name : Option String
  vendor : Option String
  url : Option String
  version : Option String
deriving DecidableEq

/-- The owned mirror `clap::host::Host`. -/
structure Host where
  clap_version : ClapVersion
  name : String
  vendor : Option String
  url : Option String
  version : String
deriving DecidableEq

/-- `Host::Host(const clap_host_t&)` (host.cpp lines 24-29):
`clap_version` is copied; `name` and `version` are asserted non-null
and copied (a null pointer fails the assertion: `none`); `vendor` and
`url` go through the null-checking ternary into optionals. -/
def Host.construct (original : ClapHostT) : Option Host :=
  match original.name, original.version with
  | Option.some n, Option.some v =>
      Option.some
        { clap_version := original.clap_version,
          name := n,
          vendor :=
            match original.vendor with
            | Option.some s => Option.some s
            | Option.none => Option.none,
          url :=
            match original.url with
            | Option.some s => Option.some s
            | Option.none => Option.none,
          version := v }
  | _, _ => Option.none

/-! ## Supporting lemmas -/

theorem readText1bMax_overflow (m : Nat) (s rest : List Nat)
    (h : m < s.length) (hs : s.length < 4294967296) :
    readText1bMax m (writeText1b s ++ rest) =
      Except.error CodecError.codecOverflow := by
  unfold readText1bMax writeText1b
  rw [List.append_assoc, readU32LE_writeU32LE s.length _ hs]
  simp [h]

theorem handle_midi_event (pt : Event β → EventResult β) (q : List β) (b : β) :
    handle_host_callback_event pt q (mk_process_events_event b) =
      Option.some (q ++ [b], midiEnqueuedResult β) := by
  simp [handle_host_callback_event, mk_process_events_event]

theorem enqueue_incoming_eq (pt : Event β → EventResult β) (q batches : List β) :
    enqueue_incoming pt q batches = q ++ batches := by
  induction batches generalizing q with
  | nil => simp [enqueue_incoming]
  | cons b t ih =>
      have step : enqueue_incoming pt q (b :: t) = enqueue_incoming pt (q ++ [b]) t := by
        simp [enqueue_incoming, handle_midi_event]
      rw [step, ih]
      simp

/-! ## Claim theorems -/

/-- Claim C1 (code bug): the claim says each owned input buffer holds
exactly `frames` samples, equal to the first `frames` samples of the
host plane. The source instead copies `sample_frames + 1` samples
(`std::copy(inputs[channel], inputs[channel] + sample_frames + 1, ...)`)
into a buffer constructed with `sample_frames` elements, so on every
call with at least one input channel the copy reads one sample past the
host plane and writes one element past the owned buffer. Evaluated at
one input channel and 64 frames. -/
theorem audio_input_copy_off_by_one :
    input_buffer_size 64 < vst_copy_count 64 ∧
    (process_replacing 1 1 [List.replicate 64 (0 : Int)] 64 id
        ([] : List Nat)).toOption.map PRResult.copy_overruns = Option.some true := by
  constructor
  · simp [input_buffer_size, vst_copy_count]
  · decide

/-- Claim C7: the constructor accepts exactly five connections in the
fixed order dispatch, dispatch-midi, host-callback, parameters, audio,
and immediately after the fifth accept sets
`finished_accepting_sockets`, closes the listener, and unlinks the
endpoint path. -/
theorem socket_accept_order :
    constructor_socket_steps.filterMap acceptedSocket =
      [SocketId.dispatch, SocketId.dispatchMidiEvents, SocketId.hostCallback,
       SocketId.parameters, SocketId.processReplacing] ∧
    (constructor_socket_steps.filterMap acceptedSocket).length = 5 ∧
    constructor_socket_steps =
      List.map CtorStep.accept
        [SocketId.dispatch, SocketId.dispatchMidiEvents, SocketId.hostCallback,
         SocketId.parameters, SocketId.processReplacing] ++
      [CtorStep.setFinishedAcceptingSockets, CtorStep.closeAcceptor,
       CtorStep.removeEndpointFile] := by
  decide

/-- Claim C3 (code bug): the claim asserts `decode(encode(m)) == m` for
`YaPhysicalUIMapList`. Because the free function
`serialize(S& s, PhysicalUIMap map)` takes the map by value, the
deserializer reads each element into a discarded copy and the decoded
list holds zeroed maps: a one-element list with fields (1, 2) decodes to
a one-element list with fields (0, 0). -/
theorem physical_ui_map_list_roundtrip_fails :
    YaPhysicalUIMapList.decode
        (YaPhysicalUIMapList.encode
          (YaPhysicalUIMapList.mk [PhysicalUIMap.mk 1 2])) =
      Except.ok (YaPhysicalUIMapList.mk [PhysicalUIMap.mk 0 0], []) ∧
    YaPhysicalUIMapList.mk [PhysicalUIMap.mk 0 0] ≠
      YaPhysicalUIMapList.mk [PhysicalUIMap.mk 1 2] := by
  exact ⟨rfl, by decide⟩

/-- Claim C9 (code bug): the claim says every string field is decoded
with an enforced maximum (default 4096), in particular
`AudioPortInfo::port_type`. The source serializes `port_type` with
`s.text1b(port_type)` — no maximum — so a port info whose `port_type` is
4097 bytes long decodes successfully instead of failing with
`CodecOverflow`. -/
theorem port_type_length_not_enforced :
    4096 < oversizedAudioPortInfo.port_type.length ∧
    AudioPortInfo.decode (AudioPortInfo.encode oversizedAudioPortInfo) =
      Except.ok (oversizedAudioPortInfo, []) := by
  have hlen : oversizedAudioPortInfo.port_type.length = 4097 := by
    rw [show oversizedAudioPortInfo.port_type = List.replicate 4097 66 from rfl]
    rw [List.length_replicate]
  constructor
  · rw [hlen]
    omega
  · have h := audio_port_info_decode_encode oversizedAudioPortInfo []
      (by decide) (by decide) (by decide) (by decide)
      (by rw [hlen]; omega) (by decide)
    simpa using h

/-- Claim C4, counterexample: with the sockets not yet all accepted and
the Windows host dead (individual mode), the liveness poll iteration
terminates the whole process; the surfaced outcome is a process abort,
which is not the null-return-plus-notification the claim requires. -/
theorem startup_death_counterexample :
    surfaced_startup_outcome
        (liveness_poll_iteration
          (LivenessObservation.mk false HostingMode.individual false true))
        (Except.ok Unit.unit) =
      EntryOutcome.processAborted ∧
    EntryOutcome.processAborted ≠ EntryOutcome.returnedNullWithNotification := by
  decide

/-- Claim C4, amended: if the Windows host dies before the fifth accept
(in individual mode the child is no longer running, in group mode
`kill(pid, 0)` fails), the liveness poll logs and calls
`std::terminate()`, aborting the process, in both hosting modes; the
entry point returns null with a user-visible notification exactly when
bridge construction throws an exception in the entry-point thread. -/
theorem startup_death_aborts_process (o : LivenessObservation)
    (hf : o.finished_accepting_sockets = false)
    (hind : o.mode = HostingMode.individual → o.child_running = false)
    (hgrp : o.mode = HostingMode.group → o.kill_zero_ok = false)
    (construction : Except String Unit) :
    liveness_poll_iteration o = PollStep.logAndTerminate ∧
    surfaced_startup_outcome (liveness_poll_iteration o) construction =
      EntryOutcome.processAborted ∧
    (∀ msg : String, vst_plugin_main (Except.error msg) =
      EntryOutcome.returnedNullWithNotification) := by
  obtain ⟨f, m, cr, kz⟩ := o
  simp only at hf hind hgrp
  subst hf
  cases m with
  | individual =>
      have h := hind rfl
      subst h
      simp [liveness_poll_iteration, surfaced_startup_outcome, vst_plugin_main]
  | group =>
      have h := hgrp rfl
      subst h
      simp [liveness_poll_iteration, surfaced_startup_outcome, vst_plugin_main]

/-- Witness for the amended claim C4, at a dead individual-mode child. -/
theorem startup_death_aborts_process_witness :
    surfaced_startup_outcome
        (liveness_poll_iteration
          (LivenessObservation.mk false HostingMode.individual false false))
        (Except.ok Unit.unit) = EntryOutcome.processAborted :=
  (startup_death_aborts_process
    (LivenessObservation.mk false HostingMode.individual false false)
    rfl (fun _ => rfl) (fun _ => rfl) (Except.ok Unit.unit)).2.1

/-- Claim C5: `get_parameter(index)` sends `{index, None}` and returns
the present response value to the host, an absent value being fatal
(`protocolMismatch`); `set_parameter(index, v)` sends `{index, Some v}`
and treats an absent response value as the acknowledgement, a present
value being fatal. -/
theorem parameter_protocol (respond : Parameter Int → ParameterResult Int)
    (index : Int) (value : Int) :
    (get_parameter respond index).1 = Parameter.mk index Option.none ∧
    (∀ v, (respond (Parameter.mk index Option.none)).value = Option.some v →
      (get_parameter respond index).2 = Except.ok v) ∧
    ((respond (Parameter.mk index Option.none)).value = Option.none →
      (get_parameter respond index).2 =
        Except.error BridgeFatal.protocolMismatch) ∧
    (set_parameter respond index value).1 =
      Parameter.mk index (Option.some value) ∧
    ((respond (Parameter.mk index (Option.some value))).value = Option.none →
      (set_parameter respond index value).2 = Except.ok Unit.unit) ∧
    (∀ v, (respond (Parameter.mk index (Option.some value))).value =
        Option.some v →
      (set_parameter respond index value).2 =
        Except.error BridgeFatal.protocolMismatch) := by
  refine ⟨rfl, ?_, ?_, rfl, ?_, ?_⟩
  · intro v h
    simp [get_parameter, h]
  · intro h
    simp [get_parameter, h]
  · intro h
    simp [set_parameter, h]
  · intro v h
    simp [set_parameter, h]

/-- Witness for claim C5: a well-behaved responder at index 3 (get
returns 7, set acknowledged) and a protocol-violating responder whose
empty get response is fatal. -/
theorem parameter_protocol_witness :
    ((fun p : Parameter Int =>
        match p.value with
        | Option.none => ParameterResult.mk (Option.some (7 : Int))
        | Option.some _ => ParameterResult.mk Option.none)
          (Parameter.mk 3 Option.none)).value = Option.some (7 : Int) ∧
    (get_parameter
        (fun p : Parameter Int =>
          match p.value with
          | Option.none => ParameterResult.mk (Option.some (7 : Int))
          | Option.some _ => ParameterResult.mk Option.none) 3).2 =
      Except.ok (7 : Int) ∧
    (set_parameter
        (fun p : Parameter Int =>
          match p.value with
          | Option.none => ParameterResult.mk (Option.some (7 : Int))
          | Option.some _ => ParameterResult.mk Option.none) 3 5).2 =
      Except.ok Unit.unit ∧
    (get_parameter (fun _ : Parameter Int => ParameterResult.mk Option.none)
        3).2 = Except.error BridgeFatal.protocolMismatch :=
  ⟨rfl,
   (parameter_protocol
      (fun p : Parameter Int =>
        match p.value with
        | Option.none => ParameterResult.mk (Option.some (7 : Int))
        | Option.some _ => ParameterResult.mk Option.none) 3 5).2.1 7 rfl,
   (parameter_protocol
      (fun p : Parameter Int =>
        match p.value with
        | Option.none => ParameterResult.mk (Option.some (7 : Int))
        | Option.some _ => ParameterResult.mk Option.none) 3 5).2.2.2.2.1 rfl,
   (parameter_protocol (fun _ : Parameter Int => ParameterResult.mk Option.none)
      3 5).2.2.1 rfl⟩

/-- Claim C6: for the close opcode, the close event is sent best-effort
(a socket error leaves the return value at 0, a delivered send returns
the plugin's value); in individual mode the Wine process is terminated
while group mode closes the dispatch channel instead; the IO context is
stopped; the group-connect handler is joined only when joinable and the
host-callback and Wine-IO handlers are always joined; the bridge is
freed last; and the resulting value is returned. -/
theorem close_shutdown_sequence (group_mode group_connect_joinable : Bool)
    (send_result : Except Unit Int) :
    (∀ v, send_result = Except.ok v →
      (dispatch_close group_mode group_connect_joinable send_result).return_value = v) ∧
    (send_result = Except.error Unit.unit →
      (dispatch_close group_mode group_connect_joinable send_result).return_value = 0) ∧
    (dispatch_close group_mode group_connect_joinable send_result).trace.head? =
      Option.some CloseAction.sendCloseEvent ∧
    (group_mode = true →
      CloseAction.closeDispatchChannel ∈
        (dispatch_close group_mode group_connect_joinable send_result).trace ∧
      CloseAction.terminateWineProcess ∉
        (dispatch_close group_mode group_connect_joinable send_result).trace) ∧
    (group_mode = false →
      CloseAction.terminateWineProcess ∈
        (dispatch_close group_mode group_connect_joinable send_result).trace ∧
      CloseAction.closeDispatchChannel ∉
        (dispatch_close group_mode group_connect_joinable send_result).trace) ∧
    CloseAction.stopIOContext ∈
      (dispatch_close group_mode group_connect_joinable send_result).trace ∧
    CloseAction.joinThread CloseThread.hostCallbackHandler ∈
      (dispatch_close group_mode group_connect_joinable send_result).trace ∧
    CloseAction.joinThread CloseThread.wineIOHandler ∈
      (dispatch_close group_mode group_connect_joinable send_result).trace ∧
    ((CloseAction.joinThread CloseThread.groupHostConnectHandler ∈
        (dispatch_close group_mode group_connect_joinable send_result).trace) ↔
      group_connect_joinable = true) ∧
    (dispatch_close group_mode group_connect_joinable send_result).trace.getLast? =
      Option.some CloseAction.freeBridge := by
  cases group_mode <;> cases group_connect_joinable <;>
    cases send_result <;> simp [dispatch_close]

/-- Witness for claim C6: individual mode, no group-connect handler, a
successful send returning 5. -/
theorem close_shutdown_sequence_witness :
    (Except.ok (5 : Int) : Except Unit Int) = Except.ok (5 : Int) ∧
    (dispatch_close false false (Except.ok (5 : Int))).return_value = 5 :=
  ⟨rfl, (close_shutdown_sequence false false (Except.ok (5 : Int))).1 5 rfl⟩

/-- Claim C8, counterexample: a dispatch call made before the plugin has
finished initializing (`plugin.magic == 0`) with opcode `effCanDo` and
the libSwell query returns 0, not -1 (the Ardour pre-init guard runs
first), refuting the unconditional claim. -/
theorem cando_cockos_preinit_counterexample :
    (dispatch_route 0 (fun _ => 0) effCanDo
        (Option.some cockos_query)).return_value = 0 ∧
    (0 : Int) ≠ -1 := by
  constructor
  · rfl
  · decide

/-- Claim C8, amended: for every dispatch call with opcode `effCanDo`
and data pointing at the libSwell query, made after the plugin has
finished initializing (`plugin.magic ≠ 0`), dispatch returns -1 and no
bytes are sent on any channel; before initialization it returns 0,
still without contacting the Wine host. -/
theorem cando_cockos_shortcircuit (magic : Int) (send : SocketId → Int)
    (h : magic ≠ 0) :
    dispatch_route magic send effCanDo (Option.some cockos_query) =
      DispatchResult.mk Option.none (-1) ∧
    (dispatch_route 0 send effCanDo (Option.some cockos_query)).sent_on =
      Option.none := by
  constructor
  · simp [dispatch_route, h, effCanDo, effClose, effProcessEvents]
  · rfl

/-- Witness for the amended claim C8, with `plugin.magic = 1`. -/
theorem cando_cockos_shortcircuit_witness :
    (1 : Int) ≠ 0 ∧
    dispatch_route 1 (fun _ => 0) effCanDo (Option.some cockos_query) =
      DispatchResult.mk Option.none (-1) :=
  ⟨by decide, (cando_cockos_shortcircuit 1 (fun _ => 0) (by decide)).1⟩

/-- Claim C10: constructing `clap::host::Host` from a `clap_host_t`
whose vendor and/or url pointers are null is well-defined and maps those
fields to `None`, copying the other fields unchanged; a null name or
version pointer fails the constructor's non-null assertion. -/
theorem host_construct_nullable (original : ClapHostT) (n v : String)
    (hn : original.name = Option.some n)
    (hv : original.version = Option.some v) :
    Host.construct original =
      Option.some
        (Host.mk original.clap_version n original.vendor original.url v) ∧
    (∀ o2 : ClapHostT, o2.name = Option.none ∨ o2.version = Option.none →
      Host.construct o2 = Option.none) := by
  constructor
  · obtain ⟨cv, nm, vd, u, ver⟩ := original
    simp only at hn hv
    subst hn
    subst hv
    cases vd <;> cases u <;> simp [Host.construct]
  · intro o2 h2
    obtain ⟨cv2, nm2, vd2, u2, ver2⟩ := o2
    simp only at h2
    rcases h2 with h2 | h2
    · subst h2
      cases ver2 <;> simp [Host.construct]
    · subst h2
      cases nm2 <;> simp [Host.construct]

/-- Witness for claim C10: a host descriptor with a null vendor pointer
and non-null name, url and version. -/
theorem host_construct_nullable_witness :
    (ClapHostT.mk (ClapVersion.mk 1 2 0) (Option.some ("REAPER"))
        Option.none (Option.some ("https://example.com")) (Option.some ("6.0"))).name =
      Option.some ("REAPER") ∧
    Host.construct
        (ClapHostT.mk (ClapVersion.mk 1 2 0) (Option.some ("REAPER"))
          Option.none (Option.some ("https://example.com")) (Option.some ("6.0"))) =
      Option.some
        (Host.mk (ClapVersion.mk 1 2 0) "REAPER" Option.none
          (Option.some ("https://example.com")) "6.0") :=
  ⟨rfl,
   (host_construct_nullable
      (ClapHostT.mk (ClapVersion.mk 1 2 0) (Option.some ("REAPER"))
        Option.none (Option.some ("https://example.com")) (Option.some ("6.0")))
      "REAPER" "6.0" rfl rfl).1⟩

/-- Claim C2: a MIDI batch arriving on the host-callback channel with
opcode `audioMasterProcessEvents` is enqueued, not forwarded, and
answered with return value 1; the queue built during a block equals the
batches in arrival order; `process_replacing` delivers exactly those
batches to the host callback, once each and in enqueue order, strictly
after the audio response has been read and the output planes written;
and it leaves the queue empty. -/
theorem midi_queue_flush (passthrough : Event (List Nat) → EventResult (List Nat))
    (batches : List (List Nat)) (numInputs numOutputs : Nat)
    (inputs : List (List Int)) (sample_frames : Nat)
    (wine_response : AudioBuffers Int → AudioBuffers Int)
    (hresp : ∀ req, (wine_response req).buffers.length = numOutputs) :
    (∀ q b, handle_host_callback_event passthrough q (mk_process_events_event b) =
        Option.some (q ++ [b], midiEnqueuedResult (List Nat))) ∧
    enqueue_incoming passthrough [] batches = batches ∧
    (∃ r pre,
      process_replacing numInputs numOutputs inputs sample_frames wine_response
          (enqueue_incoming passthrough [] batches) = Except.ok r ∧
      r.trace = pre ++ batches.map PRAction.hostCallbackProcessEvents ∧
      PRAction.readAudioResponse ∈ pre ∧
      (∀ a ∈ pre, isMidiDelivery a = false) ∧
      r.final_midi_queue = []) := by
  have henq : enqueue_incoming passthrough [] batches = batches := by
    rw [enqueue_incoming_eq]
    simp
  refine ⟨fun q b => handle_midi_event passthrough q b, henq, ?_⟩
  rw [henq]
  unfold process_replacing
  rw [if_pos (hresp _)]
  refine ⟨_, _, rfl, rfl, ?_, ?_, rfl⟩
  · simp
  · intro a ha
    simp only [List.cons_append, List.nil_append, List.mem_append,
      List.mem_cons, List.mem_map, List.not_mem_nil, or_false] at ha
    rcases ha with h | h | ⟨ch, _, h⟩
    · subst h
      rfl
    · subst h
      rfl
    · subst h
      rfl

/-- Witness for claim C2: two batches arrive during a one-frame block
with one input and one output channel; the Wine side answers with a
single silent output plane. -/
theorem midi_queue_flush_witness :
    (∀ req : AudioBuffers Int,
      ((fun _ : AudioBuffers Int => AudioBuffers.mk [[(0 : Int)]] 1) req).buffers.length = 1) ∧
    enqueue_incoming (fun _ : Event (List Nat) => midiEnqueuedResult (List Nat))
        [] [[1], [2]] = [[1], [2]] :=
  ⟨fun _ => rfl,
   (midi_queue_flush (fun _ => midiEnqueuedResult (List Nat)) [[1], [2]] 1 1
      [[(0 : Int)]] 1 (fun _ => AudioBuffers.mk [[(0 : Int)]] 1)
      (fun _ => rfl)).2.1⟩
